import Mathlib

/-!
Verification development for the natural-feature tracking library
`ImageTrackerLib` (classes `Tracker`, `MarkerDetector`, `SimpleAdHocTracker`).

The repository ships the class header `src/ImageTrackerLib.h`; the inline
member functions found there (`Tracker::reset`, `Tracker::isTracking`,
`Tracker::getModelViewMatrix`, the getters/setters) are embedded directly
from that source.  Member functions whose bodies are not in the repository
(`setMarker`, `bootstrapTracking`, `track`, `process`,
`MarkerDetector::detectMarkerInImage`, the persistence routines, and
`SimpleAdHocTracker::DecomposeEtoRandT`) are modelled from the
specification, with external numeric collaborators (feature detection,
optical flow, descriptor matching, SVD) passed in as function parameters.

`cv::Mat` objects that can be empty are embedded as `Option` of a total
matrix/list value, with `none` playing the role of the empty `Mat`.
-/

namespace ImageTrackerLib

/-- An image: a raster of pixel rows (the embedding never inspects pixels,
only dimensions, so any raster type would do). -/
abbrev Img : Type := List (List Nat)

/-- A 2D keypoint position (`cv::KeyPoint.pt`). -/
abbrev KeyPoint : Type := ℚ × ℚ

/-- A feature descriptor: one row of a descriptor `Mat`. -/
abbrev Desc : Type := List ℚ

/-- A 4x4 float matrix (`cv::Mat_<float>` of fixed size 4x4). -/
abbrev Mat4 : Type := Matrix (Fin 4) (Fin 4) ℚ

/-- The state of a `Tracker` object: the data members of class `Tracker`
in `src/ImageTrackerLib.h` (lines 56-81) that the tracking logic reads or
writes.  `cv::Mat` members that may be empty (`marker_frame`, `raux`,
`taux`, `modelViewMatrix`) are `Option`-valued, `none` being the empty
`Mat`.  The matcher's trained descriptor set is the state behind
`matcher->add/train`. -/
structure Tracker where
  marker_frame : Option Img
  marker_desc : List Desc
  marker_kp : List KeyPoint
  obj_bb : List KeyPoint
  matcher_train : List Desc
  bootstrap : Bool
  trackedFeatures : List KeyPoint
  trackedFeaturesOnMarker : List Int
  raux : Option (List ℚ)
  taux : Option (List ℚ)
  tracking : Bool
  modelViewMatrix : Option Mat4

/-- `Tracker::isTracking` (header line 94): `return tracking || bootstrap;`. -/
def Tracker.isTracking (t : Tracker) : Bool :=
  t.tracking || t.bootstrap

/-- `Tracker::getModelViewMatrix` (header lines 98-100): if the stored
`modelViewMatrix` is empty, return `Mat_<float>::eye(4,4)`; otherwise
`copyTo` a fresh matrix and return it.  The method only reads the state,
so the embedding returns the (matrix, post-state) pair. -/
def Tracker.getModelViewMatrix (t : Tracker) : Option Mat4 × Tracker :=
  match t.modelViewMatrix with
  | none => (some 1, t)
  | some m => (some m, t)

/-- `Tracker::reset` (header lines 102-109): clear `trackedFeatures` and
`trackedFeaturesOnMarker`, set `tracking = true` and `bootstrap = true`,
release `raux` and `taux`.  Note the source does not touch
`modelViewMatrix`. -/
def Tracker.reset (t : Tracker) : Tracker :=
  { t with
    trackedFeatures := []
    trackedFeaturesOnMarker := []
    tracking := true
    bootstrap := true
    raux := none
    taux := none }

/-- The conceptual tracking state machine of the spec, section 3. -/
inductive TrackingState where
  | Idle
  | Bootstrapping
  | Tracking
deriving DecidableEq, Repr

/-- Modelled from the spec: the spec's `TrackingState` read off the two
source booleans.  The source dispatches on `bootstrap` first (bootstrap
phase), then on `tracking`; a tracker that is neither bootstrapping nor
tracking is `Idle`. -/
def Tracker.state (t : Tracker) : TrackingState :=
  if t.bootstrap then .Bootstrapping
  else if t.tracking then .Tracking
  else .Idle

/-- Modelled from the spec (section 4.1): the minimum keypoint count below
which `setMarker` rejects a marker image ("a minimum number of keypoints";
the spec fixes no value, so the model uses a named constant). -/
def minMarkerKeypoints : Nat := 10

/-- Modelled from the spec (section 4.1): the minimum homography-inlier
count for `bootstrapTracking` to transition to Tracking ("e.g. 4, the
minimum for homography"). -/
def minBootstrapInliers : Nat := 4

/-- Modelled from the spec (section 4.1): the tracking-lost threshold for
`track` ("the minimum (tracking-lost threshold, e.g. 10)"). -/
def minTrackedFeatures : Nat := 10

/-- Modelled from the spec: the body of `Tracker::setMarker` is not in the
repository (only its declaration, header line 85).  Per spec section 4.1
it detects keypoints and descriptors on the marker image via the external
feature backend (`detect`, `extract` parameters), stores them, computes
the marker's bounding quadrilateral, and trains the matcher; it returns an
error code, mutating nothing, when fewer than `minMarkerKeypoints`
keypoints are found. -/
def Tracker.setMarker (detect : Img → List KeyPoint)
    (extract : Img → List KeyPoint → List Desc) (marker : Img)
    (t : Tracker) : Int × Tracker :=
  let kp := detect marker
  if kp.length < minMarkerKeypoints then
    (-1, t)
  else
    let w : ℚ := (marker.headD []).length
    let h : ℚ := marker.length
    (0, { t with
          marker_frame := some marker
          marker_kp := kp
          marker_desc := extract marker kp
          obj_bb := [(0, 0), (w, 0), (w, h), (0, h)]
          matcher_train := extract marker kp })

/-- Modelled from the spec: the body of `Tracker::bootstrapTracking` is
not in the repository (only its declaration, header line 87).  Per spec
section 4.1 it pairs frame descriptors with the marker descriptors
and robustly estimates a homography; the external matcher and estimator
are summarised by the `ms` parameter, a list of
(frame keypoint, marker keypoint index, homography-inlier flag) triples.
Matches inconsistent with the homography are discarded; if at least
`minBootstrapInliers` inliers remain the tracker transitions to Tracking,
otherwise it stays in Bootstrapping unchanged. -/
def Tracker.bootstrapTracking (ms : List (KeyPoint × Int × Bool))
    (t : Tracker) : Tracker :=
  let inliers := ms.filter (fun m => m.2.2)
  if minBootstrapInliers ≤ inliers.length then
    { t with
      trackedFeatures := inliers.map (fun m => m.1)
      trackedFeaturesOnMarker := inliers.map (fun m => m.2.1)
      bootstrap := false
      tracking := true }
  else t

/-- Modelled from the spec: the body of `Tracker::track` is not in the
repository (only its declaration, header line 88).  Per spec section 4.1
it advances each tracked feature by sparse optical flow (the external
`flow` oracle: `none` means the feature's flow confidence fell below the
threshold or it left the image bounds), dropping a lost feature together
with the same-index linkage entry; if the surviving feature count falls
below `minTrackedFeatures` the tracker resets to the Bootstrapping state
(spec section 7, TrackingLost: "recovered by automatic reset to
Bootstrapping").  `keptPairs` is the list of surviving
(feature, link-entry) pairs a `track` call on this frame retains. -/
def Tracker.keptPairs (flow : KeyPoint → Option KeyPoint) (t : Tracker) :
    List (KeyPoint × Int) :=
  (t.trackedFeatures.zip t.trackedFeaturesOnMarker).filterMap
    (fun p => (flow p.1).map (fun q => (q, p.2)))

/-- Modelled from the spec: the number of features `Tracker.track` would
retain on a frame — the surviving-feature count the tracking-lost test
compares against `minTrackedFeatures`. -/
def Tracker.survivors (flow : KeyPoint → Option KeyPoint) (t : Tracker) :
    Nat :=
  (t.keptPairs flow).length

/-- Modelled from the spec: the body of `Tracker::track` proper (see the
comment on `Tracker.keptPairs`): store the surviving features and their
same-index link entries, then reset to Bootstrapping when too few
survive. -/
def Tracker.track (flow : KeyPoint → Option KeyPoint) (t : Tracker) :
    Tracker :=
  if (t.keptPairs flow).length < minTrackedFeatures then
    Tracker.reset
      { t with
        trackedFeatures := (t.keptPairs flow).map Prod.fst
        trackedFeaturesOnMarker := (t.keptPairs flow).map Prod.snd }
  else
    { t with
      trackedFeatures := (t.keptPairs flow).map Prod.fst
      trackedFeaturesOnMarker := (t.keptPairs flow).map Prod.snd }

/-- Modelled from the spec: the body of `Tracker::process` is not in the
repository (only its declaration, header line 89).  Per spec section 4.1
it is the top-level per-frame driver dispatching to bootstrap or track
based on the current state; the embedding also returns the state the call
observed at dispatch time. -/
def Tracker.process (ms : List (KeyPoint × Int × Bool))
    (flow : KeyPoint → Option KeyPoint) (t : Tracker) :
    TrackingState × Tracker :=
  if t.bootstrap then (.Bootstrapping, t.bootstrapTracking ms)
  else if t.tracking then (.Tracking, t.track flow)
  else (.Idle, t)

/-- The reachable `Tracker` states: any freshly constructed tracker (whose
`vector` members are default-constructed empty; the remaining members are
arbitrary), closed under `reset`, `setMarker`, `bootstrapTracking` and
`track` with arbitrary external collaborators. -/
inductive Reachable : Tracker → Prop where
  | init : ∀ t : Tracker, t.trackedFeatures = [] →
      t.trackedFeaturesOnMarker = [] → Reachable t
  | reset : ∀ t : Tracker, Reachable t → Reachable t.reset
  | setMarker : ∀ (detect : Img → List KeyPoint)
      (extract : Img → List KeyPoint → List Desc) (marker : Img)
      (t : Tracker), Reachable t →
      Reachable (t.setMarker detect extract marker).2
  | bootstrapTracking : ∀ (ms : List (KeyPoint × Int × Bool))
      (t : Tracker), Reachable t → Reachable (t.bootstrapTracking ms)
  | track : ∀ (flow : KeyPoint → Option KeyPoint) (t : Tracker),
      Reachable t → Reachable (t.track flow)

/-- A bag-of-words encoding: one histogram row (`Mat` row) of `ℚ` bins. -/
abbrev Enc : Type := List ℚ

/-- A learned PCA basis (`cv::PCA`): the mean vector and the projection
basis rows. -/
structure PCAModel where
  mean : Enc
  basis : List Enc

/-- Squared Euclidean distance between two descriptor/encoding rows. -/
def dist2 (a b : List ℚ) : ℚ :=
  ((a.zipWith (fun x y => x - y) b).map (fun x => x * x)).sum

/-- Dot product of two rows. -/
def dotRow (a b : List ℚ) : ℚ :=
  (a.zipWith (fun x y => x * y) b).sum

/-- Index of the least element of a list of distances (first occurrence);
`0` on the empty list. -/
def argminIdx : List ℚ → Nat
  | [] => 0
  | d :: ds =>
    (ds.enum.foldl
      (fun acc p => if p.2 < acc.2 then (p.1 + 1, p.2) else acc)
      (0, d)).1

/-- Least element of a list of distances; `0` on the empty list. -/
def minDistOf : List ℚ → ℚ
  | [] => 0
  | d :: ds => ds.foldl min d

/-- Modelled from the spec (section 4.3): `extractBOWdescriptor` assigns
each raw descriptor of the image (supplied by the external feature
backend `detectDesc`) to its nearest vocabulary word and returns the
histogram of word occurrences, normalized by the total count. -/
def extractBOWdescriptor (detectDesc : Img → List Desc)
    (vocabulary : List Desc) (img : Img) : Enc :=
  let descs := detectDesc img
  let hist := (List.range vocabulary.length).map
    (fun w =>
      ((descs.filter
          (fun d => argminIdx (vocabulary.map (fun v => dist2 d v)) = w)).length
        : ℚ))
  if descs.length = 0 then hist
  else hist.map (fun c => c / (descs.length : ℚ))

/-- Projection of an encoding through a learned PCA basis. -/
def pcaProject (p : PCAModel) (e : Enc) : Enc :=
  p.basis.map (fun b => dotRow b (e.zipWith (fun x y => x - y) p.mean))

/-- The state of a `MarkerDetector` object: the data members of class
`MarkerDetector` in `src/ImageTrackerLib.h` (lines 117-131).  The
`CvKNearest` classifier is trained on `training`/`training_labels`, so
the embedding computes the k-nearest-neighbour classification directly
from those members. -/
structure MarkerDetector where
  vocabulary : List Desc
  markers : List Img
  marker_files : List String
  descriptorPCA : PCAModel
  descriptorsBeforePCA : List Enc
  descriptorsAfterPCA : List Enc
  training : List Enc
  training_labels : List String
  training_labelsUniq : List String

/-- Modelled from the spec (section 4.3): the number of neighbours in the
k-nearest-neighbour vote ("k-nearest-neighbor vote"; the spec fixes no
value, so the model uses a named constant). -/
def knnK : Nat := 3

/-- Modelled from the spec (section 4.3): the nearest-neighbour rejection
threshold ("a rejection threshold"; the spec fixes no value, so the model
uses a named constant). -/
def rejectionThreshold : ℚ := 1

/-- The labels of the `knnK` training encodings nearest to the query, by
squared Euclidean distance. -/
def kNearestLabels (training : List Enc) (labels : List String) (q : Enc) :
    List String :=
  ((((training.map (fun e => dist2 q e)).zip labels).insertionSort
      (fun a b => a.1 ≤ b.1)).map Prod.snd).take knnK

/-- Majority vote over a list of labels: the label occurring most often
(first such on ties); the empty sentinel `""` on the empty list. -/
def majorityLabel : List String → String
  | [] => ""
  | l :: ls =>
    (l :: ls).foldl
      (fun acc x => if (l :: ls).count acc < (l :: ls).count x then x else acc)
      l

/-- The encoding `detectMarkerInImage` computes for a query image: the
bag-of-words histogram projected through the learned PCA basis. -/
def MarkerDetector.queryEncoding (detectDesc : Img → List Desc)
    (d : MarkerDetector) (img : Img) : Enc :=
  pcaProject d.descriptorPCA (extractBOWdescriptor detectDesc d.vocabulary img)

/-- Modelled from the spec: the body of `MarkerDetector::detectMarkerInImage`
is not in the repository (only its declaration, header line 142).  Per
spec section 4.3 it encodes the query image identically to training
(bag-of-words then PCA), returns the empty sentinel label when the
training set is empty or when the nearest-neighbour distance exceeds the
rejection threshold, and otherwise returns the majority label of the k
nearest training encodings. -/
def MarkerDetector.detectMarkerInImage (detectDesc : Img → List Desc)
    (d : MarkerDetector) (img : Img) : String :=
  if d.training = [] then ""
  else
    let q := d.queryEncoding detectDesc img
    if rejectionThreshold < minDistOf (d.training.map (fun e => dist2 q e))
    then ""
    else majorityLabel (kNearestLabels d.training d.training_labels q)

/-- The serialized state written by `MarkerDetector::saveToFiles` per spec
section 4.3: Vocabulary, TrainingSet (encodings and labels), PCA basis,
and the registered marker images and files. -/
structure SavedFiles where
  vocabulary : List Desc
  training : List Enc
  training_labels : List String
  descriptorPCA : PCAModel
  markers : List Img
  marker_files : List String

/-- Modelled from the spec: the body of `MarkerDetector::saveToFiles` is
not in the repository (only its declaration, header line 136).  Per spec
sections 4.3 and 6 it serializes the Vocabulary, TrainingSet (encodings
and labels), PCA basis and registered markers; the embedding produces the
serialized record. -/
def MarkerDetector.saveToFiles (d : MarkerDetector) : SavedFiles :=
  { vocabulary := d.vocabulary
    training := d.training
    training_labels := d.training_labels
    descriptorPCA := d.descriptorPCA
    markers := d.markers
    marker_files := d.marker_files }

/-- Modelled from the spec: the body of `MarkerDetector::readFromFiles` is
not in the repository (only its declaration, header line 135).  It
reconstructs a detector from the serialized record; members that are not
serialized (the pooled pre/post-PCA descriptors) come back empty, and the
distinct-label cache is rebuilt from the loaded labels. -/
def readFromFiles (s : SavedFiles) : MarkerDetector :=
  { vocabulary := s.vocabulary
    markers := s.markers
    marker_files := s.marker_files
    descriptorPCA := s.descriptorPCA
    descriptorsBeforePCA := []
    descriptorsAfterPCA := []
    training := s.training
    training_labels := s.training_labels
    training_labelsUniq := s.training_labels.dedup }

/-- A 3x3 double matrix (`cv::Mat_<double>` of fixed size 3x3). -/
abbrev M3 : Type := Matrix (Fin 3) (Fin 3) ℚ

/-- A 3-vector of doubles. -/
abbrev V3 : Type := Fin 3 → ℚ

/-- The fixed matrix `W` of the essential-matrix decomposition
(Hartley-Zisserman section 9.6.2). -/
def Wm : M3 := !![0, -1, 0; 1, 0, 0; 0, 0, 1]

/-- The cross-product (skew-symmetric) matrix of a 3-vector, so that an
essential matrix built from a known pose `(R, t)` is `crossMat t * R`. -/
def crossMat (t : V3) : M3 :=
  !![0, -t 2, t 1; t 2, 0, -t 0; -t 1, t 0, 0]

/-- Modelled from the spec: the body of
`SimpleAdHocTracker::DecomposeEtoRandT` is not in the repository (only
its declaration, header line 184).  Per spec section 4.2 it is a pure
numeric routine: given the essential matrix through its SVD
`E = U * diag(s, s, 0) * Vt` (the SVD itself is the external numeric
collaborator, so the factors `U`, `Vt` are the inputs), it returns the
two candidate rotations `U * W * Vt` and `U * Wᵀ * Vt` — enforcing a
proper rotation (determinant +1) by flipping the sign of the essential
matrix and redoing the decomposition otherwise, which at the level of the
factors negates `Vt` — and the two candidate translation directions, the
positive and negative third singular vector (third column of `U`). -/
def DecomposeEtoRandT (U Vt : M3) : M3 × M3 × V3 × V3 :=
  let Vt2 := if (U * Wm * Vt).det < 0 then -Vt else Vt
  (U * Wm * Vt2, U * Wm.transpose * Vt2, fun i => U i 2, fun i => -U i 2)

/-- The known pose used for the closed-form decomposition test: the
identity rotation. -/
def R0 : M3 := 1

/-- The known pose used for the closed-form decomposition test: a unit
translation along the camera axis. -/
def t0 : V3 := ![0, 0, 1]

/-- The essential matrix built from the known pose `(R0, t0)`. -/
def E0 : M3 := crossMat t0 * R0

/-- `diag (1, 1, 0)`: the singular-value profile of an essential matrix
with unit singular values. -/
def Sigma0 : M3 := !![1, 0, 0; 0, 1, 0; 0, 0, 0]

/-- An exact SVD `Vt` factor for `E0` with `U = 1`:
`E0 = 1 * Sigma0 * Vt0`. -/
def Vt0 : M3 := !![0, -1, 0; 1, 0, 0; 0, 0, 1]

/-- A freshly constructed tracker: the `vector` members are
default-constructed empty, the `Mat` members empty, the flags cleared. -/
def tInit : Tracker :=
  { marker_frame := none
    marker_desc := []
    marker_kp := []
    obj_bb := []
    matcher_train := []
    bootstrap := true
    trackedFeatures := []
    trackedFeaturesOnMarker := []
    raux := none
    taux := none
    tracking := false
    modelViewMatrix := none }

/-- Ten concrete keypoints. -/
def kp10 : List KeyPoint :=
  [(0, 0), (1, 0), (2, 0), (3, 0), (4, 0),
   (5, 0), (6, 0), (7, 0), (8, 0), (9, 0)]

/-- A tracker in the Tracking state holding ten features linked to marker
keypoints 0 through 9. -/
def tTen : Tracker :=
  { tInit with
    bootstrap := false
    tracking := true
    trackedFeatures := kp10
    trackedFeaturesOnMarker := [0, 1, 2, 3, 4, 5, 6, 7, 8, 9] }

/-- A tracker in the Tracking state holding a single feature. -/
def tLost : Tracker :=
  { tInit with
    bootstrap := false
    tracking := true
    trackedFeatures := [(0, 0)]
    trackedFeaturesOnMarker := [0] }

/-- A stored pose that is not the identity. -/
def poseExample : Mat4 := Matrix.diagonal ![2, 1, 1, 1]

/-- A tracker on which a pose computation has succeeded: the cached
model-view matrix holds `poseExample`. -/
def tPose : Tracker := { tInit with modelViewMatrix := some poseExample }

/-- A trained detector with a single training encoding labelled
"marker0". -/
def dOne : MarkerDetector :=
  { vocabulary := []
    markers := []
    marker_files := []
    descriptorPCA := { mean := [], basis := [] }
    descriptorsBeforePCA := []
    descriptorsAfterPCA := []
    training := [[0]]
    training_labels := ["marker0"]
    training_labelsUniq := ["marker0"] }

/-- An untrained detector: its training set is empty. -/
def dEmpty : MarkerDetector :=
  { dOne with training := [], training_labels := [], training_labelsUniq := [] }

/-- Closed form of `Wm.transpose`. -/
theorem Wm_transpose_eq : Wm.transpose = !![0, 1, 0; -1, 0, 0; 0, 0, 1] := by
  ext i j
  fin_cases i <;> fin_cases j <;> rfl

/-- Closed form of `Vt0.transpose`. -/
theorem Vt0_transpose_eq : Vt0.transpose = !![0, 1, 0; -1, 0, 0; 0, 0, 1] := by
  ext i j
  fin_cases i <;> fin_cases j <;> rfl

/-- `Vt0` is orthogonal. -/
theorem Vt0_orthogonal : Vt0 * Vt0.transpose = 1 := by
  rw [Vt0_transpose_eq]
  ext i j
  fin_cases i <;> fin_cases j <;>
    simp [Vt0, Matrix.mul_apply, Fin.sum_univ_three, Matrix.one_apply,
      Matrix.vecHead, Matrix.vecTail]

/-- The candidate rotation `U * W * Vt` for the SVD factors of `E0` has
positive determinant, so `DecomposeEtoRandT` takes the no-flip branch. -/
theorem det_one_Wm_Vt0 : ((1 : M3) * Wm * Vt0).det = 1 := by
  norm_num [Wm, Vt0, Matrix.one_mul, Matrix.mul_fin_three, Matrix.det_fin_three]

/-- The chosen factors are an SVD of `E0`: `E0 = 1 * diag (1,1,0) * Vt0`. -/
theorem svd_factors_E0 : (1 : M3) * Sigma0 * Vt0 = E0 := by
  ext i j
  fin_cases i <;> fin_cases j <;>
    simp [Sigma0, Vt0, E0, crossMat, t0, R0, Matrix.mul_apply,
      Fin.sum_univ_three]

/-- On the SVD factors of `E0`, the second candidate rotation is the true
rotation `R0`. -/
theorem decomp_concrete_R2 : (DecomposeEtoRandT 1 Vt0).2.1 = R0 := by
  rw [show (DecomposeEtoRandT 1 Vt0).2.1
      = 1 * Wm.transpose * (if ((1 : M3) * Wm * Vt0).det < 0 then -Vt0 else Vt0)
      from rfl,
    det_one_Wm_Vt0]
  norm_num [Matrix.one_mul, Wm_transpose_eq]
  ext i j
  fin_cases i <;> fin_cases j <;>
    simp [Vt0, R0, Matrix.mul_apply, Fin.sum_univ_three, Matrix.one_apply,
      Matrix.vecHead, Matrix.vecTail]

/-- On the SVD factors of `E0`, the first candidate translation is the
true translation `t0`. -/
theorem decomp_concrete_t1 : (DecomposeEtoRandT 1 Vt0).2.2.1 = t0 := by
  funext i
  fin_cases i <;> simp [DecomposeEtoRandT, t0, Matrix.one_apply]

/-- Both candidate rotations returned by `DecomposeEtoRandT` are proper
(determinant +1) whenever the SVD factors are orthogonal. -/
theorem decompose_proper_general :
    ∀ U Vt : M3, U * U.transpose = 1 → Vt * Vt.transpose = 1 →
      (DecomposeEtoRandT U Vt).1.det = 1 ∧
      (DecomposeEtoRandT U Vt).2.1.det = 1 := by
  intro U Vt hU hV
  have hWm : Wm.det = 1 := by norm_num [Wm, Matrix.det_fin_three]
  have hWmT : Wm.transpose.det = 1 := by rw [Matrix.det_transpose]; exact hWm
  have hU1 : U.det = 1 ∨ U.det = -1 := by
    apply mul_self_eq_one_iff.mp
    have h := congrArg Matrix.det hU
    rwa [Matrix.det_mul, Matrix.det_transpose, Matrix.det_one] at h
  have hV1 : Vt.det = 1 ∨ Vt.det = -1 := by
    apply mul_self_eq_one_iff.mp
    have h := congrArg Matrix.det hV
    rwa [Matrix.det_mul, Matrix.det_transpose, Matrix.det_one] at h
  have hprod : (U * Wm * Vt).det = U.det * Vt.det := by
    rw [Matrix.det_mul, Matrix.det_mul, hWm, mul_one]
  have key : ∀ M : M3, M.det = 1 →
      (U * M * (if (U * Wm * Vt).det < 0 then -Vt else Vt)).det = 1 := by
    intro M hM
    by_cases hc : (U * Wm * Vt).det < 0
    · rw [if_pos hc, Matrix.det_mul, Matrix.det_mul, hM, mul_one]
      have hneg : (-Vt).det = -Vt.det := by
        rw [Matrix.det_neg]
        norm_num
      rw [hneg]
      rw [hprod] at hc
      rcases hU1 with h1 | h1 <;> rcases hV1 with h2 | h2 <;>
        rw [h1, h2] at hc ⊢ <;> norm_num at hc ⊢
    · rw [if_neg hc, Matrix.det_mul, Matrix.det_mul, hM, mul_one]
      rw [hprod] at hc
      rcases hU1 with h1 | h1 <;> rcases hV1 with h2 | h2 <;>
        rw [h1, h2] at hc ⊢ <;> norm_num at hc ⊢
  exact ⟨key Wm hWm, key Wm.transpose hWmT⟩

/-- C1: for the planar `Tracker`, `trackedFeatures` and its index-linkage
vector `trackedFeaturesOnMarker` have equal length in every reachable
state — after construction, `setMarker`, `bootstrapTracking`, every
sequence of `track` calls (including calls that drop features), and
`reset` — and a `track` call that keeps enough features retains exactly
the flow-surviving features, removing each dropped feature's link entry
at the same position (the survivors' link entries are the second
components of exactly the zip pairs whose feature survived the flow). -/
theorem trackedFeatures_link_length_invariant :
    (∀ t : Tracker, Reachable t →
        t.trackedFeatures.length = t.trackedFeaturesOnMarker.length) ∧
    (∀ (flow : KeyPoint → Option KeyPoint) (t : Tracker),
        minTrackedFeatures ≤ t.survivors flow →
        (t.track flow).trackedFeatures
            = (t.trackedFeatures.zip t.trackedFeaturesOnMarker).filterMap
                (fun p => flow p.1)
          ∧ (t.track flow).trackedFeaturesOnMarker
            = (t.trackedFeatures.zip t.trackedFeaturesOnMarker).filterMap
                (fun p => (flow p.1).map (fun _ => p.2))) := by
  constructor
  · intro t h
    induction h with
    | init t h1 h2 => simp [h1, h2]
    | reset t _ ih => simp [Tracker.reset]
    | setMarker detect extract marker t _ ih =>
        by_cases hk : (detect marker).length < minMarkerKeypoints
        · simpa [Tracker.setMarker, hk] using ih
        · simpa [Tracker.setMarker, hk] using ih
    | bootstrapTracking ms t _ ih =>
        by_cases hi : minBootstrapInliers ≤ (ms.filter (fun m => m.2.2)).length
        · simp [Tracker.bootstrapTracking, hi]
        · simpa [Tracker.bootstrapTracking, hi] using ih
    | track flow t _ ih =>
        by_cases hl : (t.keptPairs flow).length < minTrackedFeatures
        · simp [Tracker.track, hl, Tracker.reset]
        · simp [Tracker.track, hl]
  · intro flow t h
    have hl : ¬ (t.keptPairs flow).length < minTrackedFeatures :=
      Nat.not_lt.mpr h
    constructor
    · unfold Tracker.track
      rw [if_neg hl]
      simp [Tracker.keptPairs, List.map_filterMap, Option.map_map,
        Function.comp_def, Option.map_id]
    · unfold Tracker.track
      rw [if_neg hl]
      simp [Tracker.keptPairs, List.map_filterMap, Option.map_map,
        Function.comp_def, Option.map_id]

/-- Witness for C1: a freshly constructed tracker satisfies the length
invariant, and a `track` call on a ten-feature tracker whose features all
survive keeps the link entries aligned position by position. -/
theorem trackedFeatures_link_length_invariant_witness :
    tInit.trackedFeatures.length = tInit.trackedFeaturesOnMarker.length ∧
    (tTen.track some).trackedFeaturesOnMarker
      = (tTen.trackedFeatures.zip tTen.trackedFeaturesOnMarker).filterMap
          (fun p => (some p.1).map (fun _ => p.2)) :=
  ⟨trackedFeatures_link_length_invariant.1 tInit (Reachable.init tInit rfl rfl),
   (trackedFeatures_link_length_invariant.2 some tTen (by decide)).2⟩

/-- C2: for every `Tracker` in the Tracking state, if a `track` call
reduces the tracked-feature count below the tracking-lost threshold, the
tracker transitions back to the Bootstrapping state, so the next
`process` call (with any frame) observes state Bootstrapping, not
Tracking. -/
theorem tracking_lost_next_process_bootstrapping :
    ∀ (flow : KeyPoint → Option KeyPoint) (t : Tracker),
      t.state = .Tracking →
      t.survivors flow < minTrackedFeatures →
      (t.track flow).state = .Bootstrapping ∧
      ∀ (ms : List (KeyPoint × Int × Bool))
        (flow2 : KeyPoint → Option KeyPoint),
        (Tracker.process ms flow2 (t.track flow)).1 = .Bootstrapping := by
  intro flow t hstate hsurv
  have hsurv2 : (t.keptPairs flow).length < minTrackedFeatures := hsurv
  have hb : (t.track flow).bootstrap = true := by
    unfold Tracker.track
    rw [if_pos hsurv2]
    rfl
  refine ⟨?_, ?_⟩
  · simp [Tracker.state, hb]
  · intro ms flow2
    simp [Tracker.process, hb]

/-- Witness for C2: a tracker in the Tracking state with a single feature
loses it to a failing optical flow, and the next `process` call observes
Bootstrapping. -/
theorem tracking_lost_next_process_bootstrapping_witness :
    (tLost.track (fun _ => none)).state = .Bootstrapping ∧
    (Tracker.process [] (fun _ => none)
        (tLost.track (fun _ => none))).1 = .Bootstrapping := by
  have h := tracking_lost_next_process_bootstrapping (fun _ => none) tLost
    (by decide) (by decide)
  exact ⟨h.1, h.2 [] (fun _ => none)⟩

/-- C3: for every `Tracker` on which no pose computation has ever
succeeded (the stored `modelViewMatrix` is empty), `getModelViewMatrix`
returns the 4x4 identity matrix — a total value, never an error. -/
theorem getModelViewMatrix_identity_before_pose :
    ∀ t : Tracker, t.modelViewMatrix = none →
      (t.getModelViewMatrix).1 = some 1 := by
  intro t h
  simp [Tracker.getModelViewMatrix, h]

/-- Witness for C3: a freshly constructed tracker has an empty stored
pose and its matrix getter returns the identity. -/
theorem getModelViewMatrix_identity_before_pose_witness :
    (tInit.getModelViewMatrix).1 = some 1 :=
  getModelViewMatrix_identity_before_pose tInit rfl

/-- Counterexample to C4 as stated: `Tracker::reset` (header lines
102-109) does not discard the cached pose.  On a tracker holding the
non-identity pose `poseExample`, the pose is still cached after `reset`
and `getModelViewMatrix` still returns it. -/
theorem reset_retains_stale_pose :
    (tPose.reset).modelViewMatrix = some poseExample ∧
    ((tPose.reset).getModelViewMatrix).1 = some poseExample ∧
    poseExample ≠ 1 := by
  refine ⟨rfl, rfl, ?_⟩
  intro h
  have h00 := congrFun (congrFun h 0) 0
  simp [poseExample, Matrix.one_apply, Matrix.diagonal_apply_eq] at h00

/-- C4 (amended): `reset` clears all tracked features and all linkage
entries, forces the state back to Bootstrapping, and discards the stale
rotation/translation seeds `raux` and `taux` — but it retains the cached
model-view matrix (the stale pose survives an explicit reset exactly as
it survives a failed pose estimation). -/
theorem reset_spec :
    ∀ t : Tracker,
      (t.reset).trackedFeatures = [] ∧
      (t.reset).trackedFeaturesOnMarker = [] ∧
      (t.reset).state = .Bootstrapping ∧
      (t.reset).raux = none ∧
      (t.reset).taux = none ∧
      (t.reset).modelViewMatrix = t.modelViewMatrix := by
  intro t
  refine ⟨rfl, rfl, ?_, rfl, rfl, rfl⟩
  simp [Tracker.reset, Tracker.state]

/-- C5: `DecomposeEtoRandT` returns two candidate rotations that are
proper (determinant +1, the sign of the essential matrix being flipped
and the decomposition redone when needed) and the two candidate
translation directions are the positive and negative third singular
vector; and on an essential matrix built from the known pose `(R0, t0)`,
one of the four (rotation, translation) candidate combinations is exactly
`(R0, t0)`. -/
theorem DecomposeEtoRandT_spec :
    (∀ U Vt : M3, U * U.transpose = 1 → Vt * Vt.transpose = 1 →
        (DecomposeEtoRandT U Vt).1.det = 1 ∧
        (DecomposeEtoRandT U Vt).2.1.det = 1 ∧
        (DecomposeEtoRandT U Vt).2.2.1 = (fun i => U i 2) ∧
        (DecomposeEtoRandT U Vt).2.2.2 = (fun i => -U i 2)) ∧
    ((1 : M3) * Sigma0 * Vt0 = E0 ∧
      E0 = crossMat t0 * R0 ∧
      (DecomposeEtoRandT 1 Vt0).2.1 = R0 ∧
      (DecomposeEtoRandT 1 Vt0).2.2.1 = t0) := by
  constructor
  · intro U Vt hU hV
    exact ⟨(decompose_proper_general U Vt hU hV).1,
      (decompose_proper_general U Vt hU hV).2, rfl, rfl⟩
  · exact ⟨svd_factors_E0, rfl, decomp_concrete_R2, decomp_concrete_t1⟩

/-- Witness for C5: on the orthogonal SVD factors of `E0`, both returned
candidate rotations are proper. -/
theorem DecomposeEtoRandT_spec_witness :
    (DecomposeEtoRandT 1 Vt0).1.det = 1 ∧
    (DecomposeEtoRandT 1 Vt0).2.1.det = 1 :=
  ⟨(DecomposeEtoRandT_spec.1 1 Vt0 (by simp) Vt0_orthogonal).1,
   (DecomposeEtoRandT_spec.1 1 Vt0 (by simp) Vt0_orthogonal).2.1⟩

/-- C6: `setMarker` succeeds on every marker image with at least
`minMarkerKeypoints` detectable keypoints; on any image with fewer it
returns an error code and leaves the tracker's state — stored marker
frame, keypoints, descriptors, matcher training and all other members —
completely unmutated. -/
theorem setMarker_threshold :
    ∀ (detect : Img → List KeyPoint)
      (extract : Img → List KeyPoint → List Desc) (marker : Img)
      (t : Tracker),
      ((detect marker).length < minMarkerKeypoints →
        (t.setMarker detect extract marker).1 = -1 ∧
        (t.setMarker detect extract marker).2 = t) ∧
      (minMarkerKeypoints ≤ (detect marker).length →
        (t.setMarker detect extract marker).1 = 0) := by
  intro detect extract marker t
  constructor
  · intro h
    constructor <;> simp [Tracker.setMarker, h]
  · intro h
    simp [Tracker.setMarker, Nat.not_lt.mpr h]

/-- Witness for C6: a featureless marker image is rejected without any
state change, while a ten-keypoint marker is accepted. -/
theorem setMarker_threshold_witness :
    ((Tracker.setMarker (fun _ => []) (fun _ _ => []) [] tInit).1 = -1 ∧
      (Tracker.setMarker (fun _ => []) (fun _ _ => []) [] tInit).2 = tInit) ∧
    (Tracker.setMarker (fun _ => kp10) (fun _ _ => []) [] tInit).1 = 0 :=
  ⟨(setMarker_threshold (fun _ => []) (fun _ _ => []) [] tInit).1 (by decide),
   (setMarker_threshold (fun _ => kp10) (fun _ _ => []) [] tInit).2 (by decide)⟩

/-- C7: `detectMarkerInImage` returns the empty sentinel label — not an
exception — whenever the training set is empty or the nearest-neighbour
distance of the query's encoding exceeds the rejection threshold, and
otherwise returns the majority label of the k nearest training
encodings. -/
theorem detectMarkerInImage_spec :
    ∀ (detectDesc : Img → List Desc) (d : MarkerDetector) (img : Img),
      (d.training = [] → d.detectMarkerInImage detectDesc img = "") ∧
      (rejectionThreshold <
          minDistOf (d.training.map
            (fun e => dist2 (d.queryEncoding detectDesc img) e)) →
        d.detectMarkerInImage detectDesc img = "") ∧
      (d.training ≠ [] →
        minDistOf (d.training.map
            (fun e => dist2 (d.queryEncoding detectDesc img) e))
          ≤ rejectionThreshold →
        d.detectMarkerInImage detectDesc img
          = majorityLabel (kNearestLabels d.training d.training_labels
              (d.queryEncoding detectDesc img))) := by
  intro detectDesc d img
  refine ⟨?_, ?_, ?_⟩
  · intro h
    simp [MarkerDetector.detectMarkerInImage, h]
  · intro h
    by_cases he : d.training = []
    · simp [MarkerDetector.detectMarkerInImage, he]
    · simp [MarkerDetector.detectMarkerInImage, he, h]
  · intro he h
    simp [MarkerDetector.detectMarkerInImage, he, not_lt.mpr h]

/-- Witness for C7: the untrained detector answers the empty sentinel,
and the one-marker detector answers that marker's label on a query within
the rejection threshold. -/
theorem detectMarkerInImage_spec_witness :
    MarkerDetector.detectMarkerInImage (fun _ => []) dEmpty [] = "" ∧
    MarkerDetector.detectMarkerInImage (fun _ => []) dOne [] = "marker0" := by
  constructor
  · exact (detectMarkerInImage_spec (fun _ => []) dEmpty []).1 rfl
  · have h := (detectMarkerInImage_spec (fun _ => []) dOne []).2.2
      (by decide)
      (by norm_num [dOne, MarkerDetector.queryEncoding, pcaProject,
        minDistOf, rejectionThreshold, dist2])
    rw [h]
    decide

/-- C8: for every trained `MarkerDetector`, a `saveToFiles` followed by
`readFromFiles` — serializing Vocabulary, TrainingSet encodings and
labels, PCA basis and registered markers — yields a detector whose
`detectMarkerInImage` result on every query image is identical,
label for label, to the result of the detector before the save. -/
theorem saveLoad_roundtrip_detect :
    ∀ (detectDesc : Img → List Desc) (d : MarkerDetector) (img : Img),
      MarkerDetector.detectMarkerInImage detectDesc
          (readFromFiles d.saveToFiles) img
        = MarkerDetector.detectMarkerInImage detectDesc d img := by
  intro detectDesc d img
  rfl

/-- C9: immediately after `reset()` returns, `isTracking()` returns true:
`reset` sets both the `tracking` flag and the `bootstrap` flag to true,
`isTracking` returns their disjunction, and so a caller can never observe
`isTracking() == false` right after a reset. -/
theorem isTracking_after_reset :
    ∀ t : Tracker,
      (t.reset).tracking = true ∧ (t.reset).bootstrap = true ∧
      (t.reset).isTracking = ((t.reset).tracking || (t.reset).bootstrap) ∧
      (t.reset).isTracking = true := by
  intro t
  exact ⟨rfl, rfl, rfl, rfl⟩

/-- C10: `getModelViewMatrix` never returns an empty matrix and never
mutates the tracker's state: in every state it returns a total 4x4 matrix
— a fresh identity when no pose is stored, else the value of the stored
pose (the source's `copyTo` deep copy, so the caller's matrix is detached
from the tracker's) — and the tracker state is returned unchanged. -/
theorem getModelViewMatrix_total_pure :
    ∀ t : Tracker,
      (t.getModelViewMatrix).1 = some (t.modelViewMatrix.getD 1) ∧
      (t.getModelViewMatrix).1 ≠ none ∧
      (t.getModelViewMatrix).2 = t := by
  intro t
  cases h : t.modelViewMatrix <;>
    simp [Tracker.getModelViewMatrix, h]

end ImageTrackerLib
